import Mathlib

/-!  Verification of the Subzero fleet simulator's personality-driven
reading-synthesis engine (`simulator/fleet_simulator.py`): the personality
data selector (`_prepare_unit_data`), the per-device reading cursor and
synthesizer (`_get_reading`), the jitter function (`_add_jitter`), and the
run loop (`run`).  Real numbers of the Python code are modelled as rationals;
the uniform draws of `random.uniform(-1, 1)` and `random.random()` are passed
explicitly. -/

namespace FleetSim

/-- One row of the historical CSV data source.  `door_open` and `defrost_on`
hold the raw 0/1 integer flags of the CSV (the code converts them with
`bool(...)` only at synthesis time, and the `healthy` selector compares the
raw flag with 0). -/
structure Row where
  T_cab_meas : ℚ
  T_amb : ℚ
  door_open : ℤ
  defrost_on : ℤ
  P_comp_W : ℚ
  N_comp_Hz : ℚ
  frost_level : ℚ
  COP : ℚ
  fault : String
  fault_id : ℤ
deriving DecidableEq

/-- Static configuration of one virtual device: an entry of `FLEET_CONFIG`. -/
structure UnitConfig where
  device_id : String
  location_name : String
  lat : ℚ
  lon : ℚ
  personality : String
  description : String
deriving DecidableEq

/-- FREEZER_001, London, personality `healthy`. -/
def unit_FREEZER_001 : UnitConfig :=
  { device_id := "FREEZER_001", location_name := "London",
    lat := 51.5074, lon := -0.1278, personality := "healthy",
    description := "The Perfect Freezer - Always stable" }

/-- FREEZER_002, Manchester, personality `door_abuser`. -/
def unit_FREEZER_002 : UnitConfig :=
  { device_id := "FREEZER_002", location_name := "Manchester",
    lat := 53.4808, lon := -2.2426, personality := "door_abuser",
    description := "The Door Abuser - Frequent door open events" }

/-- FREEZER_003, Glasgow, personality `dying_compressor`. -/
def unit_FREEZER_003 : UnitConfig :=
  { device_id := "FREEZER_003", location_name := "Glasgow",
    lat := 55.8642, lon := -4.2518, personality := "dying_compressor",
    description := "The Dying Compressor - Rising temp, failing" }

/-- FREEZER_004, Birmingham, personality `frost_builder`. -/
def unit_FREEZER_004 : UnitConfig :=
  { device_id := "FREEZER_004", location_name := "Birmingham",
    lat := 52.4862, lon := -1.8904, personality := "frost_builder",
    description := "The Frost Builder - High frost, needs defrost" }

/-- FREEZER_005, Leeds, personality `energy_hog`. -/
def unit_FREEZER_005 : UnitConfig :=
  { device_id := "FREEZER_005", location_name := "Leeds",
    lat := 53.8008, lon := -1.5491, personality := "energy_hog",
    description := "The Energy Hog - High power, low efficiency" }

/-- The compiled-in fleet roster `FLEET_CONFIG` of five virtual devices. -/
def FLEET_CONFIG : List UnitConfig :=
  [unit_FREEZER_001, unit_FREEZER_002, unit_FREEZER_003,
   unit_FREEZER_004, unit_FREEZER_005]

/-- Median of a list of rationals, like `pandas.Series.median`: sort, then
take the middle element (odd length) or the mean of the two middle elements
(even length).  The empty case (pandas: NaN) gets the junk value 0; no claim
depends on it. -/
def median (l : List ℚ) : ℚ :=
  let s := l.mergeSort (fun a b => decide (a ≤ b))
  let n := s.length
  if n % 2 = 1 then s.getD (n / 2) 0
  else (s.getD (n / 2 - 1) 0 + s.getD (n / 2) 0) / 2

/-- Row filter of the `healthy` selector branch:
`(df["fault"] == "NORMAL") & (df["door_open"] == 0)`. -/
def healthy_mask (r : Row) : Bool :=
  r.fault == "NORMAL" && r.door_open == 0

/-- Row filter shared by the `door_abuser` and `dying_compressor` selector
branches: `df["fault"] == "NORMAL"`. -/
def normal_mask (r : Row) : Bool :=
  r.fault == "NORMAL"

/-- Row filter of the `frost_builder` selector branch:
`df["frost_level"] > 0.1`. -/
def frost_mask (r : Row) : Bool :=
  decide ((0.1 : ℚ) < r.frost_level)

/-- The Personality Data Selector `_prepare_unit_data`, for one personality
tag: the ordered subsequence of the data source the device will cycle
through.  `pandas` boolean-mask filtering keeps the original row order and
`reset_index(drop=True)` re-indexes from 0, which a Lean list filter does
inherently. -/
def prepare_unit_data (df : List Row) (personality : String) : List Row :=
  if personality = "healthy" then
    df.filter healthy_mask
  else if personality = "door_abuser" then
    df.filter normal_mask
  else if personality = "dying_compressor" then
    df.filter normal_mask
  else if personality = "frost_builder" then
    if 100 < (df.filter frost_mask).length then df.filter frost_mask else df
  else if personality = "energy_hog" then
    if 100 < (df.filter (fun r =>
        decide (median (df.map (fun x => x.P_comp_W)) < r.P_comp_W))).length then
      df.filter (fun r =>
        decide (median (df.map (fun x => x.P_comp_W)) < r.P_comp_W))
    else df
  else
    df

/-- The jitter function `_add_jitter`: `value + value * jitter_pct * u` where
`u` is the `random.uniform(-1, 1)` draw, made an explicit argument.  The
Python default for `jitter_pct` is 0.02. -/
def add_jitter (value : ℚ) (jitter_pct : ℚ) (u : ℚ) : ℚ :=
  let jitter := value * jitter_pct * u
  value + jitter

/-- Rounding of a rational to the nearest integer with ties to even, the
rounding rule of Python's built-in `round`. -/
def roundHalfEven (x : ℚ) : ℤ :=
  let f := Int.floor x
  let frac := x - f
  if frac < 1/2 then f
  else if 1/2 < frac then f + 1
  else if f % 2 = 0 then f else f + 1

/-- Python's `round(x, n)` for `n` decimal places (half-to-even). -/
def pyRound (x : ℚ) (n : ℕ) : ℚ :=
  (roundHalfEven (x * 10 ^ n) : ℚ) / 10 ^ n

/-- Resolution of the stored cursor index into the index actually read:
`_get_reading` resets the index to 0 when it is `>= len(data)`, otherwise
reads it as is. -/
def readIndex (len idx : ℕ) : ℕ :=
  if len ≤ idx then 0 else idx

/-- The Reading Cursor run: starting from stored index `idx` over a
subsequence of length `len`, perform `n` synthesis calls; return the list of
indices read, in order, and the final stored index.  Each call reads
`readIndex len idx` and stores that value plus one, exactly as
`_get_reading` does. -/
def cursor_run (len : ℕ) : ℕ → ℕ → List ℕ × ℕ
  | idx, 0 => ([], idx)
  | idx, Nat.succ n =>
    let r := readIndex len idx
    let p := cursor_run len (r + 1) n
    (r :: p.1, p.2)

/-- The random draws one `_get_reading` call can consume, made explicit:
`coin` is the `random.random()` draw of `door_abuser` (in [0, 1)); `u1`,
`u2`, `u3` are the `random.uniform(-1, 1)` draws of the personality branch
in code order; `ufCab` and `ufAmb` are the draws of the final
always-applied cabinet/ambient jitter. -/
structure Draws where
  coin : ℚ
  u1 : ℚ
  u2 : ℚ
  u3 : ℚ
  ufCab : ℚ
  ufAmb : ℚ
deriving DecidableEq

/-- The emitted reading record (the dict returned by `_get_reading`).  The
`timestamp` field is wall-clock time taken at emission and is left out of
the model; every other field is kept. -/
structure Reading where
  sensor_type : String
  device_id : String
  lat : ℚ
  lon : ℚ
  location_name : String
  temp_cabinet : ℚ
  temp_ambient : ℚ
  door_open : Bool
  defrost_on : Bool
  compressor_power_w : ℚ
  compressor_freq_hz : ℚ
  frost_level : ℚ
  cop : ℚ
  fault : String
  fault_id : ℤ
deriving DecidableEq

/-- The rising pre-cap base temperature of `dying_compressor`:
`base_temp = -10.0 + (idx / 1000.0)`. -/
def dying_base (idx : ℕ) : ℚ :=
  -10.0 + (idx : ℚ) / 1000.0

/-- The pre-jitter base temperature of `dying_compressor`: `min(base_temp, 5.0)`. -/
def dying_pre_temp (idx : ℕ) : ℚ :=
  min (dying_base idx) 5.0

/-- The jittered cabinet temperature of `dying_compressor` on which the fault
decision is made: `self._add_jitter(min(base_temp, 5.0), 0.1)`. -/
def dying_temp (idx : ℕ) (u : ℚ) : ℚ :=
  add_jitter (dying_pre_temp idx) 0.1 u

/-- The Reading Synthesizer: the pure part of `_get_reading` that turns one
historical row, the read cursor index and the random draws into the emitted
record.  Mirrors the code: baseline fields from the row, then the
personality branch, then the final always-applied cabinet/ambient jitter,
then rounding at dict construction. -/
def synthesize_reading (unit : UnitConfig) (row : Row) (idx : ℕ) (d : Draws) :
    Reading :=
  let base : Reading :=
    { sensor_type := "freezer", device_id := unit.device_id,
      lat := unit.lat, lon := unit.lon, location_name := unit.location_name,
      temp_cabinet := row.T_cab_meas, temp_ambient := row.T_amb,
      door_open := decide (row.door_open ≠ 0),
      defrost_on := decide (row.defrost_on ≠ 0),
      compressor_power_w := row.P_comp_W, compressor_freq_hz := row.N_comp_Hz,
      frost_level := row.frost_level, cop := row.COP,
      fault := row.fault, fault_id := row.fault_id }
  let mid : Reading :=
    if unit.personality = "healthy" then
      { base with temp_cabinet := add_jitter (-18.0) 0.05 d.u1,
                  door_open := false, fault := "NORMAL", fault_id := 0,
                  frost_level := add_jitter 0.05 0.1 d.u2 }
    else if unit.personality = "door_abuser" then
      let dOpen := decide (d.coin < 0.3)
      { base with door_open := dOpen,
                  temp_cabinet :=
                    if dOpen then add_jitter (-12.0) 0.1 d.u1
                    else add_jitter (-17.0) 0.05 d.u1,
                  fault := "NORMAL", fault_id := 0 }
    else if unit.personality = "dying_compressor" then
      let tc := dying_temp idx d.u1
      { base with temp_cabinet := tc,
                  compressor_power_w := add_jitter 700.0 0.1 d.u2,
                  compressor_freq_hz := add_jitter 95.0 0.05 d.u3,
                  fault := if (-5 : ℚ) < tc then "COMPRESSOR_FAIL" else "NORMAL",
                  fault_id := if (-5 : ℚ) < tc then 3 else 0 }
    else if unit.personality = "frost_builder" then
      { base with temp_cabinet := add_jitter (-16.0) 0.05 d.u1,
                  frost_level := min (add_jitter 0.6 0.1 d.u2) 1.0,
                  fault := "NORMAL", fault_id := 0 }
    else if unit.personality = "energy_hog" then
      { base with temp_cabinet := add_jitter (-17.0) 0.05 d.u1,
                  compressor_power_w := add_jitter 650.0 0.1 d.u2,
                  cop := add_jitter 1.5 0.1 d.u3,
                  fault := "NORMAL", fault_id := 0 }
    else base
  { mid with
      temp_cabinet := pyRound (add_jitter mid.temp_cabinet 0.01 d.ufCab) 2,
      temp_ambient := pyRound (add_jitter mid.temp_ambient 0.02 d.ufAmb) 2,
      compressor_power_w := pyRound mid.compressor_power_w 1,
      compressor_freq_hz := pyRound mid.compressor_freq_hz 1,
      frost_level := pyRound mid.frost_level 3,
      cop := pyRound mid.cop 2 }

/-- The simulator's mutable state: `self.unit_data` (the per-device
subsequences, keyed by device id) and `self.unit_indices` (the per-device
stored cursor indices). -/
structure SimState where
  unit_data : String → List Row
  unit_indices : String → ℕ

/-- The state after one successful `_get_reading` call for `unit`: only the
calling device's stored cursor changes, to the read index plus one. -/
def get_reading_state (unit : UnitConfig) (s : SimState) : SimState :=
  let newIdx :=
    readIndex (s.unit_data unit.device_id).length (s.unit_indices unit.device_id) + 1
  { s with unit_indices := Function.update s.unit_indices unit.device_id newIdx }

/-- One `_get_reading` call: resolve the cursor (wrapping to 0 when it is at
or past the end), read the row, synthesize the reading, advance the cursor.
`none` models the `IndexError` that `data.iloc[idx]` raises when the
device's slice is empty, which would crash the process. -/
def get_reading (unit : UnitConfig) (d : Draws) (s : SimState) :
    Option (Reading × SimState) :=
  let data := s.unit_data unit.device_id
  let idx := readIndex data.length (s.unit_indices unit.device_id)
  match data.get? idx with
  | none => none
  | some row => some (synthesize_reading unit row idx d, get_reading_state unit s)

/-- One cycle of the run loop body: iterate the device roster in order; for
each device synthesize a reading and hand it to `send_reading`, whose
success/failure outcome (`ok`) is recorded next to the reading and only
logged — the loop continues either way.  `dw` supplies each device's random
draws. -/
def run_cycle (dw : UnitConfig → Draws) (ok : Reading → Bool) :
    List UnitConfig → SimState → Option (List (Reading × Bool) × SimState)
  | [], s => some ([], s)
  | u :: rest, s =>
    match get_reading u (dw u) s with
    | none => none
    | some (r, s2) =>
      match run_cycle dw ok rest s2 with
      | none => none
      | some (l, sf) => some ((r, ok r) :: l, sf)

/-- The `run` loop.  `fuel` bounds the number of iterations we unfold (the
Python loop is `while True`); `dr` gives iteration `iter`'s draws per device;
`sleeps` counts executed `time.sleep(interval)` calls.  In test mode the
loop breaks after one cycle, before the sleep.  Returns the emitted
readings with their transmission outcomes and the number of sleeps
performed; `none` models a crash (empty slice) or running out of fuel. -/
def run : ℕ → Bool → (ℕ → UnitConfig → Draws) → (Reading → Bool) →
    SimState → ℕ → ℕ → Option (List (Reading × Bool) × ℕ)
  | 0, _, _, _, _, _, _ => none
  | Nat.succ fuel, test_mode, dr, ok, s, iter, sleeps =>
    match run_cycle (dr iter) ok FLEET_CONFIG s with
    | none => none
    | some (l, s2) =>
      if test_mode then some (l, sleeps)
      else
        match run fuel test_mode dr ok s2 (iter + 1) (sleeps + 1) with
        | none => none
        | some (l2, sl) => some (l ++ l2, sl)

/-- A sample data-source row: fault-free, door closed. -/
def row_normal : Row :=
  { T_cab_meas := -18, T_amb := 20, door_open := 0, defrost_on := 0,
    P_comp_W := 300, N_comp_Hz := 50, frost_level := 0.05, COP := 2.5,
    fault := "NORMAL", fault_id := 0 }

/-- A sample data-source row with the door flag set (fault label still
"NORMAL"), so it fails the `healthy` selector's mask. -/
def row_door1 : Row :=
  { T_cab_meas := -15, T_amb := 21, door_open := 1, defrost_on := 0,
    P_comp_W := 310, N_comp_Hz := 50, frost_level := 0.06, COP := 2.4,
    fault := "NORMAL", fault_id := 0 }

/-- A sample high-frost data-source row (`frost_level > 0.1`). -/
def row_frosty : Row :=
  { T_cab_meas := -16, T_amb := 19, door_open := 0, defrost_on := 1,
    P_comp_W := 320, N_comp_Hz := 52, frost_level := 0.5, COP := 2.2,
    fault := "NORMAL", fault_id := 0 }

/-- All-zero random draws (every uniform draw at 0, coin at 0). -/
def draws0 : Draws :=
  { coin := 0, u1 := 0, u2 := 0, u3 := 0, ufCab := 0, ufAmb := 0 }

/-- Draws with the final cabinet jitter pulled fully downward. -/
def drawsCabDown : Draws :=
  { coin := 0, u1 := 0, u2 := 0, u3 := 0, ufCab := -1, ufAmb := 0 }

/-- Draws with the final cabinet jitter pulled fully upward. -/
def drawsCabUp : Draws :=
  { coin := 0, u1 := 0, u2 := 0, u3 := 0, ufCab := 1, ufAmb := 0 }

/-- A data source of 101 high-frost rows (every row passes `frost_mask`). -/
def df_frosty : List Row :=
  List.replicate 101 row_frosty

/-- A concrete simulator state: every device id mapped to the one-row slice
`[row_normal]`, every cursor at 0. -/
def simState0 : SimState :=
  { unit_data := fun _ => [row_normal], unit_indices := fun _ => 0 }

theorem readIndex_lt {len : ℕ} (idx : ℕ) (hlen : 0 < len) : readIndex len idx < len := by
  unfold readIndex
  split_ifs with h
  · exact hlen
  · omega

theorem cursor_run_progress (len : ℕ) :
    ∀ (n idx : ℕ), idx + n ≤ len → cursor_run len idx n = (List.range' idx n, idx + n) := by
  intro n
  induction n with
  | zero => intro idx _; rfl
  | succ m ih =>
    intro idx h
    have hidx : ¬ len ≤ idx := by omega
    have hr : readIndex len idx = idx := by unfold readIndex; rw [if_neg hidx]
    have hrec := ih (idx + 1) (by omega)
    show (readIndex len idx :: (cursor_run len (readIndex len idx + 1) m).1,
          (cursor_run len (readIndex len idx + 1) m).2) = _
    rw [hr, hrec, List.range'_succ]
    simp
    omega

theorem cursor_run_add (len : ℕ) :
    ∀ (m n idx : ℕ), cursor_run len idx (m + n) =
      ((cursor_run len idx m).1 ++ (cursor_run len (cursor_run len idx m).2 n).1,
        (cursor_run len (cursor_run len idx m).2 n).2) := by
  intro m
  induction m with
  | zero => intro n idx; simp [cursor_run]
  | succ k ih =>
    intro n idx
    have hshift : k + 1 + n = (k + n) + 1 := by omega
    rw [hshift]
    show (readIndex len idx :: (cursor_run len (readIndex len idx + 1) (k + n)).1,
          (cursor_run len (readIndex len idx + 1) (k + n)).2) = _
    rw [ih n (readIndex len idx + 1)]
    rfl

theorem cursor_run_stored_le (len : ℕ) (hlen : 0 < len) :
    ∀ (n idx : ℕ), idx ≤ len → (cursor_run len idx n).2 ≤ len := by
  intro n
  induction n with
  | zero => intro idx h; exact h
  | succ m ih =>
    intro idx _
    exact ih (readIndex len idx + 1) (readIndex_lt idx hlen)

theorem cursor_run_reads_lt (len : ℕ) (hlen : 0 < len) :
    ∀ (n idx : ℕ), ((cursor_run len idx n).1.all (fun r => decide (r < len))) = true := by
  intro n
  induction n with
  | zero => intro idx; rfl
  | succ m ih =>
    intro idx
    show ((readIndex len idx :: (cursor_run len (readIndex len idx + 1) m).1).all
      (fun r => decide (r < len))) = true
    rw [List.all_cons, ih (readIndex len idx + 1)]
    simp [readIndex_lt idx hlen]

/-- C3: with a subsequence of length `L ≥ 1` and the stored cursor starting
at 0, `L` consecutive synthesis calls read indices `0, 1, ..., L-1` in
order, the `(L+1)`-th call reads index 0 again (a wrap, not an error), every
index read is in bounds (so no out-of-range access reaches the caller), and
the stored index stays `≤ L` (and, being a natural, `≥ 0`) after any number
of calls. -/
theorem C3_cursor_wrap (L n s : ℕ) (hL : 1 ≤ L) :
    (cursor_run L 0 L).1 = List.range L ∧
    (cursor_run L 0 (L + 1)).1 = List.range L ++ [0] ∧
    (cursor_run L 0 n).2 ≤ L ∧
    ((cursor_run L 0 n).1.all (fun r => decide (r < L))) = true ∧
    readIndex L s < L := by
  have hfirst : cursor_run L 0 L = (List.range L, L) := by
    rw [cursor_run_progress L L 0 (by omega), List.range_eq_range']
    simp
  refine ⟨by rw [hfirst], ?_, cursor_run_stored_le L hL n 0 (by omega),
    cursor_run_reads_lt L hL n 0, readIndex_lt s hL⟩
  rw [cursor_run_add L L 1 0, hfirst]
  have hwrap : cursor_run L L 1 = ([0], 1) := by
    show (readIndex L L :: (cursor_run L (readIndex L L + 1) 0).1,
          (cursor_run L (readIndex L L + 1) 0).2) = ([0], 1)
    unfold readIndex
    rw [if_pos le_rfl]
    rfl
  rw [hwrap]

/-- C3 witness: the wrap behaviour at the concrete length L = 3, after 7
calls, with stored index 5 probed for in-bounds resolution. -/
theorem C3_cursor_wrap_witness :
    (cursor_run 3 0 3).1 = List.range 3 ∧
    (cursor_run 3 0 (3 + 1)).1 = List.range 3 ++ [0] ∧
    (cursor_run 3 0 7).2 ≤ 3 ∧
    ((cursor_run 3 0 7).1.all (fun r => decide (r < 3))) = true ∧
    readIndex 3 5 < 3 :=
  C3_cursor_wrap 3 7 5 (by decide)

/-- C1 counterexample: a loadable one-row data source whose single row has
fault label "NORMAL" but door flag 1, so no row satisfies the `healthy`
filter; `_prepare_unit_data` returns the empty subsequence for `healthy`
instead of a non-empty one — there is no fallback for this personality. -/
theorem C1_healthy_empty_counterexample :
    prepare_unit_data [row_door1] "healthy" = [] ∧ ([row_door1] : List Row) ≠ [] := by
  constructor
  · rfl
  · decide

/-- C1 amended: the Selector's subsequence is non-empty for `frost_builder`,
`energy_hog` and unrecognized personalities whenever the data source itself
is non-empty (they fall back to the full source), and for `healthy`,
`door_abuser` and `dying_compressor` only when at least one row satisfies
the personality's filter — with no matching row those three produce an
empty subsequence. -/
theorem C1_selector_nonempty_amended (df : List Row) (p : String)
    (hdf : df ≠ [])
    (hh : p = "healthy" → ∃ r ∈ df, healthy_mask r = true)
    (hn : p = "door_abuser" ∨ p = "dying_compressor" → ∃ r ∈ df, normal_mask r = true) :
    prepare_unit_data df p ≠ [] := by
  unfold prepare_unit_data
  by_cases h1 : p = "healthy"
  · rw [if_pos h1]
    obtain ⟨r, hr, hm⟩ := hh h1
    exact List.ne_nil_of_mem (List.mem_filter.mpr ⟨hr, hm⟩)
  rw [if_neg h1]
  by_cases h2 : p = "door_abuser"
  · rw [if_pos h2]
    obtain ⟨r, hr, hm⟩ := hn (Or.inl h2)
    exact List.ne_nil_of_mem (List.mem_filter.mpr ⟨hr, hm⟩)
  rw [if_neg h2]
  by_cases h3 : p = "dying_compressor"
  · rw [if_pos h3]
    obtain ⟨r, hr, hm⟩ := hn (Or.inr h3)
    exact List.ne_nil_of_mem (List.mem_filter.mpr ⟨hr, hm⟩)
  rw [if_neg h3]
  by_cases h4 : p = "frost_builder"
  · rw [if_pos h4]
    split_ifs with hlen
    · intro hc
      rw [hc] at hlen
      simp at hlen
    · exact hdf
  rw [if_neg h4]
  by_cases h5 : p = "energy_hog"
  · rw [if_pos h5]
    split_ifs with hlen
    · intro hc
      rw [hc] at hlen
      simp at hlen
    · exact hdf
  rw [if_neg h5]
  exact hdf

/-- C1 amended witness: a one-row all-normal data source gives a non-empty
`healthy` subsequence. -/
theorem C1_selector_nonempty_amended_witness :
    prepare_unit_data [row_normal] "healthy" ≠ [] :=
  C1_selector_nonempty_amended [row_normal] "healthy" (by decide)
    (fun _ => ⟨row_normal, List.mem_singleton.mpr rfl, by decide⟩)
    (fun h => absurd h (by decide))

/-- C2 counterexample: at base value v = -1, jitter fraction p = 1 and the
valid uniform draw u = 0, the jitter output -1 does not lie in the interval
[v*(1-p), v*(1+p)] = [0, -2], which is empty because for negative v the
stated endpoints are in reversed order. -/
theorem C2_jitter_interval_counterexample :
    -1 ≤ (0 : ℚ) ∧ (0 : ℚ) ≤ 1 ∧ (0 : ℚ) ≤ (1 : ℚ) ∧
    add_jitter (-1) 1 0 ∉ Set.Icc ((-1 : ℚ) * (1 - 1)) ((-1 : ℚ) * (1 + 1)) := by
  refine ⟨by norm_num, by norm_num, by norm_num, ?_⟩
  rw [Set.mem_Icc]
  norm_num [add_jitter]

/-- C2 amended: for every base value v, jitter fraction p ≥ 0 and uniform
draw u in [-1, 1], the jitter output v + v*p*u lies within
[v - \x7cv\x7c*p, v + \x7cv\x7c*p]; when v ≥ 0 this is the stated interval
[v*(1-p), v*(1+p)]; and when p = 0 the output equals v exactly. -/
theorem C2_jitter_bounds_amended (v p u : ℚ) (hp : 0 ≤ p) (hu1 : -1 ≤ u) (hu2 : u ≤ 1) :
    add_jitter v p u ∈ Set.Icc (v - |v| * p) (v + |v| * p) ∧
    (0 ≤ v → add_jitter v p u ∈ Set.Icc (v * (1 - p)) (v * (1 + p))) ∧
    (p = 0 → add_jitter v p u = v) := by
  have h1 : 0 ≤ p * ((|v| + v) * (1 + u)) := by
    apply mul_nonneg hp
    apply mul_nonneg
    · linarith [neg_abs_le v]
    · linarith
  have h2 : 0 ≤ p * ((|v| - v) * (1 - u)) := by
    apply mul_nonneg hp
    apply mul_nonneg
    · linarith [le_abs_self v]
    · linarith
  have h3 : 0 ≤ p * ((|v| - v) * (1 + u)) := by
    apply mul_nonneg hp
    apply mul_nonneg
    · linarith [le_abs_self v]
    · linarith
  have h4 : 0 ≤ p * ((|v| + v) * (1 - u)) := by
    apply mul_nonneg hp
    apply mul_nonneg
    · linarith [neg_abs_le v]
    · linarith
  have main : v - |v| * p ≤ add_jitter v p u ∧ add_jitter v p u ≤ v + |v| * p := by
    simp only [add_jitter]
    constructor
    · nlinarith [h1, h2]
    · nlinarith [h3, h4]
  refine ⟨Set.mem_Icc.mpr main, fun hv => Set.mem_Icc.mpr ?_, fun h0 => ?_⟩
  · rw [abs_of_nonneg hv] at main
    constructor
    · nlinarith [main.1]
    · nlinarith [main.2]
  · simp only [add_jitter, h0]
    ring

/-- C2 amended witness: at v = 2, p = 0, u = 1 the output is inside both
intervals and equals the base value. -/
theorem C2_jitter_bounds_amended_witness :
    add_jitter 2 0 1 ∈ Set.Icc ((2 : ℚ) - |(2 : ℚ)| * 0) (2 + |(2 : ℚ)| * 0) ∧
    add_jitter 2 0 1 ∈ Set.Icc ((2 : ℚ) * (1 - 0)) (2 * (1 + 0)) ∧
    add_jitter 2 0 1 = 2 := by
  obtain ⟨a, b, c⟩ := C2_jitter_bounds_amended 2 0 1 le_rfl (by norm_num) (by norm_num)
  exact ⟨a, b (by norm_num), c rfl⟩

/-- C6: for `frost_builder`, when strictly more than 100 rows of the data
source pass the frost filter (`frost_level > 0.1`) the subsequence is
exactly the filtered rows in original order (re-indexed from 0, as a list
filter inherently is); with 100 or fewer passing rows it is the entire
unfiltered data source. -/
theorem C6_frost_builder_selection (df : List Row) :
    (100 < (df.filter frost_mask).length →
      prepare_unit_data df "frost_builder" = df.filter frost_mask) ∧
    ((df.filter frost_mask).length ≤ 100 →
      prepare_unit_data df "frost_builder" = df) := by
  unfold prepare_unit_data
  rw [if_neg (by decide), if_neg (by decide), if_neg (by decide), if_pos rfl]
  constructor
  · intro h
    rw [if_pos h]
  · intro h
    rw [if_neg (by omega)]

/-- C6 witness: the 101-row all-frosty source keeps exactly its filtered
rows, and a one-row low-frost source falls back to the whole source. -/
theorem C6_frost_builder_selection_witness :
    prepare_unit_data df_frosty "frost_builder" = df_frosty.filter frost_mask ∧
    prepare_unit_data [row_normal] "frost_builder" = [row_normal] := by
  have hfm : frost_mask row_frosty = true := by
    norm_num [frost_mask, row_frosty]
  have hbig : df_frosty.filter frost_mask = df_frosty := by
    rw [List.filter_eq_self]
    intro a ha
    rw [List.eq_of_mem_replicate ha]
    exact hfm
  have hnm : frost_mask row_normal = false := by
    norm_num [frost_mask, row_normal]
  constructor
  · exact (C6_frost_builder_selection df_frosty).1
      (by rw [hbig]; norm_num [df_frosty])
  · exact (C6_frost_builder_selection [row_normal]).2
      (by simp [List.filter, hnm])

theorem roundHalfEven_le (x : ℚ) : (roundHalfEven x : ℚ) ≤ x + 1 := by
  simp only [roundHalfEven]
  split_ifs <;> push_cast <;> linarith [Int.floor_le x]

theorem pyRound_le_add (x : ℚ) (n : ℕ) : pyRound x n ≤ x + 1 / 10 ^ n := by
  have hpow : (0 : ℚ) < 10 ^ n := by positivity
  simp only [pyRound]
  rw [div_le_iff₀ hpow, add_mul, div_mul_cancel₀ _ (ne_of_gt hpow)]
  exact roundHalfEven_le (x * 10 ^ n)

/-- C4: for personality `dying_compressor`, the pre-jitter base temperature
`min(-10.0 + index/1000.0, 5.0)` is non-decreasing in the cursor index and
caps at 5.0; and in every call the fault label is "COMPRESSOR_FAIL" with
fault id 3 exactly when the jittered cabinet temperature (the value the code
tests, before the final 1% jitter) exceeds -5.0, and "NORMAL" with fault id
0 otherwise. -/
theorem C4_dying_compressor_ramp_and_fault (unit : UnitConfig) (row : Row)
    (i j : ℕ) (d : Draws)
    (hp : unit.personality = "dying_compressor") (hij : i ≤ j) :
    dying_pre_temp i ≤ dying_pre_temp j ∧ dying_pre_temp j ≤ 5.0 ∧
    (synthesize_reading unit row i d).fault =
      (if (-5 : ℚ) < dying_temp i d.u1 then "COMPRESSOR_FAIL" else "NORMAL") ∧
    (synthesize_reading unit row i d).fault_id =
      (if (-5 : ℚ) < dying_temp i d.u1 then 3 else 0) := by
  have hij' : (i : ℚ) ≤ (j : ℚ) := by exact_mod_cast hij
  refine ⟨?_, min_le_right _ _, ?_, ?_⟩
  · unfold dying_pre_temp dying_base
    apply min_le_min _ le_rfl
    linarith
  · simp only [synthesize_reading, hp]
    rw [if_neg (by decide), if_neg (by decide)]
    simp
  · simp only [synthesize_reading, hp]
    rw [if_neg (by decide), if_neg (by decide)]
    simp

/-- C4 witness: the ramp and the fault rule at cursor indices 0 and 1 for
the configured dying-compressor device. -/
theorem C4_dying_compressor_ramp_and_fault_witness :
    dying_pre_temp 0 ≤ dying_pre_temp 1 ∧ dying_pre_temp 1 ≤ 5.0 ∧
    (synthesize_reading unit_FREEZER_003 row_normal 0 draws0).fault =
      (if (-5 : ℚ) < dying_temp 0 draws0.u1 then "COMPRESSOR_FAIL" else "NORMAL") ∧
    (synthesize_reading unit_FREEZER_003 row_normal 0 draws0).fault_id =
      (if (-5 : ℚ) < dying_temp 0 draws0.u1 then 3 else 0) :=
  C4_dying_compressor_ramp_and_fault unit_FREEZER_003 row_normal 0 1 draws0 rfl
    (by decide)

/-- C5: the `dying_compressor` fault is decided on the cabinet temperature
before the final 1% jitter: at cursor index 5000 the decision value is
exactly -5 (hence "NORMAL"), yet a full downward final draw emits a
temp_cabinet of -4.95 > -5; at index 5001 the decision value is -4.999
(hence "COMPRESSOR_FAIL"), yet a full upward final draw emits -5.05 ≤ -5.
All draws used lie in [-1, 1]. -/
theorem C5_fault_decided_before_final_jitter :
    (-1 ≤ drawsCabDown.ufCab ∧ drawsCabDown.ufCab ≤ 1 ∧
      -1 ≤ drawsCabUp.ufCab ∧ drawsCabUp.ufCab ≤ 1) ∧
    ((synthesize_reading unit_FREEZER_003 row_normal 5000 drawsCabDown).fault = "NORMAL" ∧
      -5 < (synthesize_reading unit_FREEZER_003 row_normal 5000 drawsCabDown).temp_cabinet) ∧
    ((synthesize_reading unit_FREEZER_003 row_normal 5001 drawsCabUp).fault = "COMPRESSOR_FAIL" ∧
      (synthesize_reading unit_FREEZER_003 row_normal 5001 drawsCabUp).temp_cabinet ≤ -5) := by
  refine ⟨⟨by norm_num [drawsCabDown], by norm_num [drawsCabDown],
    by norm_num [drawsCabUp], by norm_num [drawsCabUp]⟩, ⟨?_, ?_⟩, ⟨?_, ?_⟩⟩
  · simp only [synthesize_reading, unit_FREEZER_003]
    rw [if_neg (by decide), if_neg (by decide)]
    simp only [if_true, eq_self_iff_true, if_pos]
    rw [if_neg]
    norm_num [dying_temp, dying_pre_temp, dying_base, add_jitter, min_def, drawsCabDown]
  · simp only [synthesize_reading, unit_FREEZER_003]
    rw [if_neg (by decide), if_neg (by decide)]
    simp only [if_true, eq_self_iff_true, if_pos]
    norm_num [dying_temp, dying_pre_temp, dying_base, add_jitter, min_def, drawsCabDown,
      pyRound, roundHalfEven]
  · simp only [synthesize_reading, unit_FREEZER_003]
    rw [if_neg (by decide), if_neg (by decide)]
    simp only [if_true, eq_self_iff_true, if_pos]
    rw [if_pos]
    norm_num [dying_temp, dying_pre_temp, dying_base, add_jitter, min_def, drawsCabUp]
  · simp only [synthesize_reading, unit_FREEZER_003]
    rw [if_neg (by decide), if_neg (by decide)]
    simp only [if_true, eq_self_iff_true, if_pos]
    norm_num [dying_temp, dying_pre_temp, dying_base, add_jitter, min_def, drawsCabUp,
      pyRound, roundHalfEven]

/-- C8: for personality `healthy`, every synthesized reading has
door_open = false, fault = "NORMAL" and fault_id = 0, for every input row,
cursor index and random draws. -/
theorem C8_healthy_fields (unit : UnitConfig) (row : Row) (idx : ℕ) (d : Draws)
    (hp : unit.personality = "healthy") :
    (synthesize_reading unit row idx d).door_open = false ∧
    (synthesize_reading unit row idx d).fault = "NORMAL" ∧
    (synthesize_reading unit row idx d).fault_id = 0 := by
  simp only [synthesize_reading, hp]
  simp

/-- C8 witness: the configured healthy device on a row whose raw door flag
is 1 still emits door_open = false, fault "NORMAL", fault id 0. -/
theorem C8_healthy_fields_witness :
    (synthesize_reading unit_FREEZER_001 row_door1 0 draws0).door_open = false ∧
    (synthesize_reading unit_FREEZER_001 row_door1 0 draws0).fault = "NORMAL" ∧
    (synthesize_reading unit_FREEZER_001 row_door1 0 draws0).fault_id = 0 :=
  C8_healthy_fields unit_FREEZER_001 row_door1 0 draws0 rfl

/-- C9: for personality `frost_builder`, the emitted frost_level never
exceeds 1.0, for every row, cursor index and uniform draw in [-1, 1]: the
jittered value is clamped to at most 1.0 before the 3-decimal rounding. -/
theorem C9_frost_level_le_one (unit : UnitConfig) (row : Row) (idx : ℕ) (d : Draws)
    (hp : unit.personality = "frost_builder") (hu1 : -1 ≤ d.u2) (hu2 : d.u2 ≤ 1) :
    (synthesize_reading unit row idx d).frost_level ≤ 1.0 := by
  have hfl : (synthesize_reading unit row idx d).frost_level =
      pyRound (min (add_jitter 0.6 0.1 d.u2) 1.0) 3 := by
    simp only [synthesize_reading, hp]
    rw [if_neg (by decide), if_neg (by decide), if_neg (by decide)]
    simp
  have hx : min (add_jitter 0.6 0.1 d.u2) 1.0 ≤ 0.66 := by
    have hj : add_jitter 0.6 0.1 d.u2 ≤ 0.66 := by
      simp only [add_jitter]
      nlinarith
    exact le_trans (min_le_left _ _) hj
  have hr := pyRound_le_add (min (add_jitter 0.6 0.1 d.u2) 1.0) 3
  rw [hfl]
  have h1000 : (1 : ℚ) / 10 ^ 3 = 0.001 := by norm_num
  rw [h1000] at hr
  calc pyRound (min (add_jitter 0.6 0.1 d.u2) 1.0) 3
      ≤ min (add_jitter 0.6 0.1 d.u2) 1.0 + 0.001 := hr
    _ ≤ 0.66 + 0.001 := by linarith
    _ ≤ 1.0 := by norm_num

/-- C9 witness: the configured frost-builder device with the neutral draw
emits a frost level at most 1.0. -/
theorem C9_frost_level_le_one_witness :
    (synthesize_reading unit_FREEZER_004 row_normal 0 draws0).frost_level ≤ 1.0 :=
  C9_frost_level_le_one unit_FREEZER_004 row_normal 0 draws0 rfl
    (by norm_num [draws0]) (by norm_num [draws0])

theorem synthesize_reading_device_id (unit : UnitConfig) (row : Row) (idx : ℕ)
    (d : Draws) : (synthesize_reading unit row idx d).device_id = unit.device_id := by
  simp only [synthesize_reading]
  split_ifs <;> simp

theorem get_reading_eq_some (unit : UnitConfig) (d : Draws) (s : SimState)
    (hne : s.unit_data unit.device_id ≠ []) :
    get_reading unit d s = some
      (synthesize_reading unit
        ((s.unit_data unit.device_id).get
          ⟨readIndex (s.unit_data unit.device_id).length (s.unit_indices unit.device_id),
            readIndex_lt _ (List.length_pos.mpr hne)⟩)
        (readIndex (s.unit_data unit.device_id).length (s.unit_indices unit.device_id)) d,
      get_reading_state unit s) := by
  have hlen : 0 < (s.unit_data unit.device_id).length := List.length_pos.mpr hne
  have hidx := readIndex_lt (s.unit_indices unit.device_id) hlen
  simp only [get_reading]
  rw [List.get?_eq_get hidx]

theorem run_cycle_ok_irrel (dw : UnitConfig → Draws) (ok1 ok2 : Reading → Bool) :
    ∀ (units : List UnitConfig) (s : SimState),
      (run_cycle dw ok1 units s).map (fun p => (p.1.map Prod.fst, p.2)) =
      (run_cycle dw ok2 units s).map (fun p => (p.1.map Prod.fst, p.2)) := by
  intro units
  induction units with
  | nil => intro s; rfl
  | cons u rest ih =>
    intro s
    simp only [run_cycle]
    cases hg : get_reading u (dw u) s with
    | none => rfl
    | some rs =>
      obtain ⟨r, s2⟩ := rs
      have h := ih s2
      cases h1 : run_cycle dw ok1 rest s2 with
      | none =>
        cases h2 : run_cycle dw ok2 rest s2 with
        | none => simp [h1, h2]
        | some q =>
          rw [h1, h2] at h
          simp at h
      | some q1 =>
        cases h2 : run_cycle dw ok2 rest s2 with
        | none =>
          rw [h1, h2] at h
          simp at h
        | some q2 =>
          obtain ⟨q1a, q1b⟩ := q1
          obtain ⟨q2a, q2b⟩ := q2
          rw [h1, h2] at h
          simp only [Option.map_some', Option.some.injEq, Prod.mk.injEq] at h
          simp only [h1, h2]
          simp [h.1, h.2]

/-- C7: one synthesis-and-transmit step for a device with a non-empty slice
succeeds and mutates exactly one piece of state: the calling device's
cursor, set (once) to the resolved read index plus one; the slices and
every other device's cursor are untouched.  And across a whole cycle, the
transmission outcomes (`ok1` vs `ok2`, i.e. success vs failure of
`send_reading`) change nothing but the logged flags: the readings produced
and the resulting state are identical and the loop never halts early on a
failed send. -/
theorem C7_step_frame (unit : UnitConfig) (d : Draws) (s : SimState) (k : String)
    (units : List UnitConfig) (dw : UnitConfig → Draws) (ok1 ok2 : Reading → Bool)
    (hne : s.unit_data unit.device_id ≠ []) (hk : k ≠ unit.device_id) :
    (get_reading unit d s).map Prod.snd = some (get_reading_state unit s) ∧
    (get_reading_state unit s).unit_data = s.unit_data ∧
    (get_reading_state unit s).unit_indices k = s.unit_indices k ∧
    (get_reading_state unit s).unit_indices unit.device_id =
      readIndex (s.unit_data unit.device_id).length (s.unit_indices unit.device_id) + 1 ∧
    (run_cycle dw ok1 units s).map (fun p => (p.1.map Prod.fst, p.2)) =
      (run_cycle dw ok2 units s).map (fun p => (p.1.map Prod.fst, p.2)) := by
  refine ⟨?_, rfl, ?_, ?_, run_cycle_ok_irrel dw ok1 ok2 units s⟩
  · rw [get_reading_eq_some unit d s hne]
    rfl
  · simp only [get_reading_state]
    exact Function.update_noteq hk _ _
  · simp only [get_reading_state]
    exact Function.update_same _ _ _

/-- C7 witness: the frame facts at a concrete one-row state, an outside key,
a one-device roster, and the two constant transmission outcomes. -/
theorem C7_step_frame_witness :
    (get_reading unit_FREEZER_001 draws0 simState0).map Prod.snd =
      some (get_reading_state unit_FREEZER_001 simState0) ∧
    (get_reading_state unit_FREEZER_001 simState0).unit_data = simState0.unit_data ∧
    (get_reading_state unit_FREEZER_001 simState0).unit_indices "OTHER" =
      simState0.unit_indices "OTHER" ∧
    (get_reading_state unit_FREEZER_001 simState0).unit_indices
        unit_FREEZER_001.device_id =
      readIndex (simState0.unit_data unit_FREEZER_001.device_id).length
        (simState0.unit_indices unit_FREEZER_001.device_id) + 1 ∧
    (run_cycle (fun _ => draws0) (fun _ => false) [unit_FREEZER_001] simState0).map
        (fun p => (p.1.map Prod.fst, p.2)) =
      (run_cycle (fun _ => draws0) (fun _ => true) [unit_FREEZER_001] simState0).map
        (fun p => (p.1.map Prod.fst, p.2)) :=
  C7_step_frame unit_FREEZER_001 draws0 simState0 "OTHER" [unit_FREEZER_001]
    (fun _ => draws0) (fun _ => false) (fun _ => true) (by decide) (by decide)

theorem run_cycle_spec (dw : UnitConfig → Draws) (ok : Reading → Bool) :
    ∀ (units : List UnitConfig) (s : SimState),
      (∀ u ∈ units, s.unit_data u.device_id ≠ []) →
      ∃ l s2, run_cycle dw ok units s = some (l, s2) ∧
        l.map (fun rb => rb.1.device_id) = units.map (fun u => u.device_id) ∧
        s2.unit_data = s.unit_data := by
  intro units
  induction units with
  | nil => intro s _; exact ⟨[], s, rfl, rfl, rfl⟩
  | cons u rest ih =>
    intro s hs
    have hne := hs u (List.mem_cons_self u rest)
    have hrest : ∀ v ∈ rest, (get_reading_state u s).unit_data v.device_id ≠ [] :=
      fun v hv => hs v (List.mem_cons_of_mem _ hv)
    obtain ⟨l, s2, hrc, hids, hdata⟩ := ih (get_reading_state u s) hrest
    have hg := get_reading_eq_some u (dw u) s hne
    refine ⟨(synthesize_reading u
        ((s.unit_data u.device_id).get
          ⟨readIndex (s.unit_data u.device_id).length (s.unit_indices u.device_id),
            readIndex_lt (s.unit_indices u.device_id) (List.length_pos.mpr hne)⟩)
        (readIndex (s.unit_data u.device_id).length (s.unit_indices u.device_id)) (dw u),
      ok (synthesize_reading u
        ((s.unit_data u.device_id).get
          ⟨readIndex (s.unit_data u.device_id).length (s.unit_indices u.device_id),
            readIndex_lt (s.unit_indices u.device_id) (List.length_pos.mpr hne)⟩)
        (readIndex (s.unit_data u.device_id).length (s.unit_indices u.device_id)) (dw u)))
      :: l, s2, ?_, ?_, hdata⟩
    · simp [run_cycle, hg, hrc]
    · simp only [List.map_cons, synthesize_reading_device_id]
      rw [hids]

/-- C10: with the one-shot test flag set and every configured device holding
a non-empty slice, the run loop performs exactly one cycle: it emits exactly
5 readings, one per configured device in roster order, executes zero
inter-cycle sleeps, and the result does not depend on how much further fuel
the loop had (it terminates after the single cycle). -/
theorem C10_one_shot_run (fuel : ℕ) (dr : ℕ → UnitConfig → Draws)
    (ok : Reading → Bool) (s : SimState)
    (hne : ∀ u ∈ FLEET_CONFIG, s.unit_data u.device_id ≠ []) :
    (run (fuel + 1) true dr ok s 0 0).map
        (fun p => (p.1.map (fun rb => rb.1.device_id), p.2)) =
      some (["FREEZER_001", "FREEZER_002", "FREEZER_003", "FREEZER_004",
        "FREEZER_005"], 0) ∧
    (run (fuel + 1) true dr ok s 0 0).map (fun p => p.1.length) = some 5 ∧
    run (fuel + 1) true dr ok s 0 0 = run 1 true dr ok s 0 0 := by
  obtain ⟨l, s2, hrc, hids, _⟩ := run_cycle_spec (dr 0) ok FLEET_CONFIG s hne
  have hids5 : l.map (fun rb => rb.1.device_id) =
      ["FREEZER_001", "FREEZER_002", "FREEZER_003", "FREEZER_004", "FREEZER_005"] := by
    rw [hids]
    rfl
  have hlen5 : l.length = 5 := by
    have hlm := congrArg List.length hids5
    simpa using hlm
  have hrun : run (fuel + 1) true dr ok s 0 0 = some (l, 0) := by
    show (match run_cycle (dr 0) ok FLEET_CONFIG s with
      | none => none
      | some (l, s2) =>
        if true = true then some (l, 0)
        else
          match run fuel true dr ok s2 (0 + 1) (0 + 1) with
          | none => none
          | some (l2, sl) => some (l ++ l2, sl)) = some (l, 0)
    rw [hrc]
    simp
  have hrun1 : run 1 true dr ok s 0 0 = some (l, 0) := by
    show (match run_cycle (dr 0) ok FLEET_CONFIG s with
      | none => none
      | some (l, s2) =>
        if true = true then some (l, 0)
        else
          match run 0 true dr ok s2 (0 + 1) (0 + 1) with
          | none => none
          | some (l2, sl) => some (l ++ l2, sl)) = some (l, 0)
    rw [hrc]
    simp
  refine ⟨?_, ?_, by rw [hrun, hrun1]⟩
  · rw [hrun]
    simp [hids5]
  · rw [hrun]
    simp [hlen5]

/-- C10 witness: a one-shot run over the concrete one-row-per-device state
emits the 5 roster readings in order with zero sleeps, independent of fuel. -/
theorem C10_one_shot_run_witness :
    (run (0 + 1) true (fun _ _ => draws0) (fun _ => true) simState0 0 0).map
        (fun p => (p.1.map (fun rb => rb.1.device_id), p.2)) =
      some (["FREEZER_001", "FREEZER_002", "FREEZER_003", "FREEZER_004",
        "FREEZER_005"], 0) ∧
    (run (0 + 1) true (fun _ _ => draws0) (fun _ => true) simState0 0 0).map
        (fun p => p.1.length) = some 5 ∧
    run (0 + 1) true (fun _ _ => draws0) (fun _ => true) simState0 0 0 =
      run 1 true (fun _ _ => draws0) (fun _ => true) simState0 0 0 :=
  C10_one_shot_run 0 (fun _ _ => draws0) (fun _ => true) simState0 (by decide)

end FleetSim
